import Mathlib

set_option maxRecDepth 10000

/-!
Verification of the Lyrics-to-Vocabulary Extraction Pipeline of
`src/app.py` (Streamlit app "UtaVocab2").

Python strings are embedded as `List Char` (a Python `str` is a sequence
of Unicode code points, which `Char` models exactly).  Pure helper
functions of the source are translated one-to-one; the Streamlit process
handler is embedded as `extract`, a pure function from the request and a
model-client stub to the run's observable outcome (errors shown, number
of model calls, backoff sleeps).  The external `json.loads` is modelled
by an executable JSON decoder `jsonLoads`, and the external Gemini client
by a stub function from (prompt, call index) to a response.
-/

/-- Whitespace as stripped by Python `str.strip()` (the ASCII whitespace
class; the pipeline only ever strips ASCII fences and newlines). -/
def pyIsSpace (c : Char) : Bool :=
  c = ' ' ∨ c = '\t' ∨ c = '\n' ∨ c = '\x0d' ∨ c = '\x0b' ∨ c = '\x0c'

/-- Python `s.strip()`: drop whitespace from both ends. -/
def pyStrip (s : List Char) : List Char :=
  ((s.dropWhile pyIsSpace).reverse.dropWhile pyIsSpace).reverse

/-- Python `s[a:-b]` (for `a, b ≥ 0`): the elements from index `a` up to
index `len s - b` (exclusive), empty when the range is empty. -/
def pySlice (a b : Nat) (s : List Char) : List Char :=
  (s.drop a).take (s.length - (a + b))

/-- The character class of the regex at src/app.py:53,
`[ぁ-ゔァ-ヴー々〆〤一-龥]`: Hiragana ぁ(U+3041)–ゔ(U+3094), Katakana
ァ(U+30A1)–ヴ(U+30F4), the marks ー(U+30FC), 々(U+3005), 〆(U+3006),
〤(U+3024), and CJK ideographs 一(U+4E00)–龥(U+9FA5). -/
def isJpChar (c : Char) : Bool :=
  (0x3041 ≤ c.toNat ∧ c.toNat ≤ 0x3094) ∨
  (0x30A1 ≤ c.toNat ∧ c.toNat ≤ 0x30F4) ∨
  c.toNat = 0x30FC ∨ c.toNat = 0x3005 ∨ c.toNat = 0x3006 ∨ c.toNat = 0x3024 ∨
  (0x4E00 ≤ c.toNat ∧ c.toNat ≤ 0x9FA5)

/-- Number of Japanese characters found in the text
(`re.findall(...)` returns one match per matching character). -/
def jpCount (text : List Char) : Nat :=
  (text.filter isJpChar).length

/-- src/app.py:52-54 — `is_japanese`: at least 15 Japanese characters
(the absolute-count policy). -/
def is_japanese (text : List Char) : Bool :=
  15 ≤ jpCount text

/-- Modelled from the spec: the *ratio policy* of §4.1, absent from
src/app.py (which only implements the absolute-count policy):
Japanese-character count / total character count > 0.2, i.e.
`5 * jpCount > length`. -/
def is_japanese_ratio_policy (text : List Char) : Bool :=
  text.length < 5 * jpCount text

/-- Decimal rendering of the word count (Python `str(num_words)`). -/
def natToChars (n : Nat) : List Char :=
  (Nat.repr n).data

/-- The f-string of src/app.py:58-88 up to `{num_words}`. -/
def promptHead : List Char :=
  "\nYou are a professional Japanese language teacher.\n\nExtract ".data

/-- The f-string of src/app.py:58-88 between `{num_words}` and
`{lyrics[:500]}` (literal braces written with their escapes). -/
def promptMid : List Char :=
  (" Japanese vocabulary words from the song lyrics below.\nReturn ONLY valid JSON. No explanations, no markdown, no commentary.\n\nRequirements:\n- furigana must be correct\n- English translation must be accurate\n- JLPT level must be N5–N1\n- Example sentence must be natural and relevant.\n- Example sentence must follow this EXACT pattern:\n\n\"<Japanese sentence> (<Romaji>) - <English sentence>\"\n\nCorrect JSON format:\n\x7b\n  \"vocab\": [\n    \x7b\n      \"word\": \"...\",\n      \"furigana\": \"...\",\n      \"translation\": \"...\",\n      \"jlpt\": \"...\",\n      \"example\": \"...\"\n    \x7d\n  ]\n\x7d\n\nLyrics (first 500 chars):\n").data

/-- src/app.py:57-88 — `build_prompt(lyrics, num_words)`: the instruction
template with the lyrics truncated to their first 500 characters
(`lyrics[:500]`). -/
def build_prompt (lyrics : List Char) (num_words : Nat) : List Char :=
  promptHead ++ natToChars num_words ++ promptMid ++ lyrics.take 500 ++ "\n".data

/-- src/app.py:91-97 — `clean_gemini_output`: strip, then remove a
```` ```json ```` … ```` ``` ```` fence (`text[7:-3]`) or a bare
```` ``` ```` … ```` ``` ```` fence (`text[3:-3]`), stripping the
interior; otherwise return the stripped text. -/
def clean_gemini_output (text : List Char) : List Char :=
  if "```json".data.isPrefixOf (pyStrip text) ∧ "```".data.isSuffixOf (pyStrip text) then
    pyStrip (pySlice 7 3 (pyStrip text))
  else if "```".data.isPrefixOf (pyStrip text) ∧ "```".data.isSuffixOf (pyStrip text) then
    pyStrip (pySlice 3 3 (pyStrip text))
  else pyStrip text

example : clean_gemini_output "```json\n\x7b\"vocab\":[]\x7d\n```".data
    = "\x7b\"vocab\":[]\x7d".data := by decide

example : is_japanese "こんにちは".data = false := by decide

example : build_prompt "abc".data 3 =
    promptHead ++ "3".data ++ promptMid ++ "abc".data ++ "\n".data := by decide

/-! ### A model of `json.loads` (the Python standard-library decoder) -/

/-- JSON values as produced by `json.loads`.  Numbers keep their lexeme
(the pipeline never does arithmetic on them). -/
inductive Json where
  | null
  | bool (b : Bool)
  | num (lexeme : List Char)
  | str (s : List Char)
  | arr (elems : List Json)
  | obj (fields : List (List Char × Json))
deriving Repr

/-- JSON inter-token whitespace (space, tab, newline, carriage return). -/
def skipWs (s : List Char) : List Char :=
  s.dropWhile (fun c => c = ' ' ∨ c = '\t' ∨ c = '\n' ∨ c = '\x0d')

def isJsonDigit (c : Char) : Bool := '0' ≤ c ∧ c ≤ '9'

def hexVal (c : Char) : Option Nat :=
  if '0' ≤ c ∧ c ≤ '9' then some (c.toNat - '0'.toNat)
  else if 'a' ≤ c ∧ c ≤ 'f' then some (c.toNat - 'a'.toNat + 10)
  else if 'A' ≤ c ∧ c ≤ 'F' then some (c.toNat - 'A'.toNat + 10)
  else none

/-- Body of a JSON string after the opening quote; returns the decoded
characters and the remaining input after the closing quote. -/
def parseStringBody : Nat → List Char → List Char → Except (List Char) (List Char × List Char)
  | 0, _, _ => .error "Unterminated string".data
  | _ + 1, _, [] => .error "Unterminated string".data
  | f + 1, acc, c :: rest =>
    if c = '"' then .ok (acc.reverse, rest)
    else if c = '\\' then
      match rest with
      | [] => .error "Unterminated string".data
      | e :: rest2 =>
        if e = '"' then parseStringBody f ('"' :: acc) rest2
        else if e = '\\' then parseStringBody f ('\\' :: acc) rest2
        else if e = '/' then parseStringBody f ('/' :: acc) rest2
        else if e = 'n' then parseStringBody f ('\n' :: acc) rest2
        else if e = 't' then parseStringBody f ('\t' :: acc) rest2
        else if e = 'r' then parseStringBody f ('\x0d' :: acc) rest2
        else if e = 'b' then parseStringBody f ('\x08' :: acc) rest2
        else if e = 'f' then parseStringBody f ('\x0c' :: acc) rest2
        else if e = 'u' then
          match rest2 with
          | h1 :: h2 :: h3 :: h4 :: rest3 =>
            match hexVal h1, hexVal h2, hexVal h3, hexVal h4 with
            | some a, some b, some c2, some d =>
              parseStringBody f (Char.ofNat (((a * 16 + b) * 16 + c2) * 16 + d) :: acc) rest3
            | _, _, _, _ => .error "Invalid \\uXXXX escape".data
          | _ => .error "Invalid \\uXXXX escape".data
        else .error "Invalid \\escape".data
    else parseStringBody f (c :: acc) rest

/-- Fraction and exponent tail of a JSON number lexeme. -/
def parseNumTail (intPart : List Char) (s : List Char) : Except (List Char) (List Char × List Char) :=
  let step1 : Except (List Char) (List Char × List Char) :=
    match s with
    | '.' :: r =>
      let ds := r.takeWhile isJsonDigit
      if ds = [] then .error "Expecting digit in fraction".data
      else .ok (intPart ++ '.' :: ds, r.dropWhile isJsonDigit)
    | _ => .ok (intPart, s)
  match step1 with
  | .error e => .error e
  | .ok (lex, s2) =>
    match s2 with
    | e :: r =>
      if e = 'e' ∨ e = 'E' then
        let (sgn, r2) : List Char × List Char :=
          match r with
          | '+' :: r3 => (['+'], r3)
          | '-' :: r3 => (['-'], r3)
          | _ => ([], r)
        let ds := r2.takeWhile isJsonDigit
        if ds = [] then .error "Expecting digit in exponent".data
        else .ok (lex ++ e :: sgn ++ ds, r2.dropWhile isJsonDigit)
      else .ok (lex, s2)
    | [] => .ok (lex, s2)

/-- A JSON number lexeme: `-? int frac? exp?` with `int = 0 | [1-9][0-9]*`. -/
def parseNumber (s : List Char) : Except (List Char) (List Char × List Char) :=
  let (neg, s1) : List Char × List Char :=
    match s with
    | '-' :: r => (['-'], r)
    | _ => ([], s)
  match s1 with
  | '0' :: r => parseNumTail (neg ++ ['0']) r
  | c :: r =>
    if isJsonDigit c then
      parseNumTail (neg ++ c :: r.takeWhile isJsonDigit) (r.dropWhile isJsonDigit)
    else .error "Expecting value".data
  | [] => .error "Expecting value".data

mutual

/-- A JSON value (fuel-indexed recursive-descent decoder). -/
def parseVal : Nat → List Char → Except (List Char) (Json × List Char)
  | 0, _ => .error "Too deeply nested".data
  | f + 1, s0 =>
    match skipWs s0 with
    | [] => .error "Expecting value".data
    | c :: rest =>
      if c = 'n' then
        match rest with
        | 'u' :: 'l' :: 'l' :: r => .ok (.null, r)
        | _ => .error "Expecting value".data
      else if c = 't' then
        match rest with
        | 'r' :: 'u' :: 'e' :: r => .ok (.bool true, r)
        | _ => .error "Expecting value".data
      else if c = 'f' then
        match rest with
        | 'a' :: 'l' :: 's' :: 'e' :: r => .ok (.bool false, r)
        | _ => .error "Expecting value".data
      else if c = '"' then
        match parseStringBody (rest.length + 1) [] rest with
        | .error e => .error e
        | .ok (str, r) => .ok (.str str, r)
      else if c = '[' then
        match skipWs rest with
        | ']' :: r2 => .ok (.arr [], r2)
        | r => parseElems f r []
      else if c.toNat = 123 then
        match skipWs rest with
        | c2 :: r2 =>
          if c2.toNat = 125 then .ok (.obj [], r2)
          else parseMembers f (c2 :: r2) []
        | [] => .error "Expecting property name enclosed in double quotes".data
      else if c = '-' ∨ isJsonDigit c then
        match parseNumber (c :: rest) with
        | .error e => .error e
        | .ok (lex, r) => .ok (.num lex, r)
      else .error "Expecting value".data

/-- Elements of a JSON array after `[` (at least one element). -/
def parseElems : Nat → List Char → List Json → Except (List Char) (Json × List Char)
  | 0, _, _ => .error "Too deeply nested".data
  | f + 1, s, acc =>
    match parseVal f s with
    | .error e => .error e
    | .ok (v, r) =>
      match skipWs r with
      | ',' :: r2 => parseElems f r2 (v :: acc)
      | ']' :: r2 => .ok (.arr (v :: acc).reverse, r2)
      | _ => .error "Expecting comma delimiter".data

/-- Members of a JSON object after `\x7b` (at least one member). -/
def parseMembers : Nat → List Char → List (List Char × Json) → Except (List Char) (Json × List Char)
  | 0, _, _ => .error "Too deeply nested".data
  | f + 1, s, acc =>
    match skipWs s with
    | c :: rest =>
      if c = '"' then
        match parseStringBody (rest.length + 1) [] rest with
        | .error e => .error e
        | .ok (key, r) =>
          match skipWs r with
          | ':' :: r2 =>
            match parseVal f r2 with
            | .error e => .error e
            | .ok (v, r3) =>
              match skipWs r3 with
              | ',' :: r4 => parseMembers f r4 ((key, v) :: acc)
              | c2 :: r4 =>
                if c2.toNat = 125 then .ok (.obj ((key, v) :: acc).reverse, r4)
                else .error "Expecting comma delimiter".data
              | [] => .error "Expecting comma delimiter".data
          | _ => .error "Expecting colon delimiter".data
      else .error "Expecting property name enclosed in double quotes".data
    | [] => .error "Expecting property name enclosed in double quotes".data

end

/-- Model of Python `json.loads`: decode one JSON document, requiring the
whole input to be consumed (`Extra data` otherwise). -/
def jsonLoads (s : List Char) : Except (List Char) Json :=
  match parseVal (2 * s.length + 2) s with
  | .error e => .error e
  | .ok (v, rest) =>
    match skipWs rest with
    | [] => .ok v
    | _ => .error "Extra data".data

example : jsonLoads "not json".data = .error "Expecting value".data := by rfl
example : jsonLoads "\x7b\"vocab\":[]\x7d".data = .ok (.obj [("vocab".data, .arr [])]) := by rfl
example : jsonLoads "[1, 2.5, \"a\"]".data
    = .ok (.arr [.num ['1'], .num ['2', '.', '5'], .str ['a']]) := by rfl

/-! ### VocabularyParser: `parse_json_safely` + the vocab extraction -/

/-- Python dict lookup with default, `data.get("vocab", [])`: for a dict
decoded by `json.loads` the *last* binding of a duplicated key wins. -/
def dictGet (fields : List (List Char × Json)) (key : List Char) (dflt : Json) : Json :=
  fields.foldl (fun acc kv => if kv.1 = key then kv.2 else acc) dflt

/-- `data.get("vocab", [])` at src/app.py:169 (`data` is the decoded
document; a non-object document is given the default). -/
def pyGetVocab (data : Json) : Json :=
  match data with
  | .obj fields => dictGet fields "vocab".data (Json.arr [])
  | _ => Json.arr []

/-- Python truthiness (`if not vocab_list`, src/app.py:171) on a decoded
JSON value: `None`, `False`, numeric zero, and empty string/list/dict are
falsy.  A number is zero exactly when its mantissa has no nonzero digit. -/
def jsonFalsy : Json → Bool
  | .null => true
  | .bool b => !b
  | .num lex => (lex.takeWhile (fun c => c ≠ 'e' ∧ c ≠ 'E')).all
      (fun c => ¬ isJsonDigit c ∨ c = '0')
  | .str s => s.isEmpty
  | .arr xs => xs.isEmpty
  | .obj fs => fs.isEmpty

/-- The error taxonomy of the pipeline (spec §7), as surfaced by the
source's `st.error` messages. -/
inductive ExtractionError where
  | invalidInput (msg : List Char)
  | rateLimited
  | serviceError
  | transportError
  | invalidJson (diag : List Char)
  | emptyVocabulary
deriving Repr, DecidableEq

/-- src/app.py:119-124 — `parse_json_safely`: the decoded document, or
(after displaying the decoder's diagnostic) the empty dict.  The first
component records the diagnostic when decoding failed. -/
def parse_json_safely (text : List Char) : Option (List Char) × Json :=
  match jsonLoads text with
  | .ok j => (none, j)
  | .error e => (some e, Json.obj [])

/-- The VocabularyParser of spec §4.6: `parse_json_safely`
(src/app.py:119-124) composed with the `vocab` extraction and emptiness
check (src/app.py:169-173).  The failure kind is the first error the
source displays on that path. -/
def parse (text : List Char) : Except ExtractionError Json :=
  match parse_json_safely text with
  | (some diag, _) => .error (.invalidJson diag)
  | (none, data) =>
    let vocab_list := pyGetVocab data
    if jsonFalsy vocab_list then .error .emptyVocabulary
    else .ok vocab_list

example : parse "not json".data = .error (.invalidJson "Expecting value".data) := by rfl
example : parse "\x7b\"vocab\":[]\x7d".data = .error .emptyVocabulary := by rfl
example : parse "\x7b\"vocab\":[1]\x7d".data = .ok (.arr [.num ['1']]) := by rfl

/-! ### ModelClient and the retry policies -/

/-- One response of the external model client (spec §4.3): success with
a text, or one of the three failure kinds. -/
inductive ModelResp where
  | ok (text : List Char)
  | rateLimited
  | serviceError
  | transportError
deriving Repr, DecidableEq

/-- A model-client stub: the response to the given prompt on the given
(zero-based) call index. -/
def ModelClient : Type := List Char → Nat → ModelResp

/-- The two retry policies of spec §4.4; only `singleShotFailFast` is
implemented in src/app.py (`call_gemini`), `backoff3x` is spec-modelled. -/
inductive RetryPolicy where
  | singleShotFailFast
  | backoff3x
deriving Repr, DecidableEq

/-- Observable outcome of the model-calling phase: number of calls made,
backoff sleeps performed (seconds, in order), and the result. -/
structure CallResult where
  calls : Nat
  waits : List Nat
  outcome : Except ExtractionError (List Char)
deriving Repr

/-- src/app.py:100-116 — `call_gemini`: call the model exactly once; a
429 (rate limit) stops with the quota message, any other API error stops
with "API Error", any other exception stops with "Unexpected Error". -/
def call_gemini (prompt : List Char) (client : ModelClient) : CallResult :=
  match client prompt 0 with
  | .ok t => ⟨1, [], .ok t⟩
  | .rateLimited => ⟨1, [], .error .rateLimited⟩
  | .serviceError => ⟨1, [], .error .serviceError⟩
  | .transportError => ⟨1, [], .error .transportError⟩

/-- Modelled from the spec: the `backoff3x` loop of §4.4, absent from
src/app.py.  `attempt` is 1-based, `remaining` counts attempts left out
of `maxAttempts = 3`.  On a retryable failure (ServiceError,
TransportError) with attempts left, sleep `2^attempt` seconds and retry;
RateLimited is never retried; the final attempt's failure is fatal. -/
def backoff3xGo (prompt : List Char) (client : ModelClient) :
    Nat → Nat → List Nat → CallResult
  | _, 0, waits => ⟨0, waits, .error .serviceError⟩
  | attempt, r + 1, waits =>
    match client prompt (attempt - 1) with
    | .ok t => ⟨attempt, waits, .ok t⟩
    | .rateLimited => ⟨attempt, waits, .error .rateLimited⟩
    | .serviceError =>
      if r = 0 then ⟨attempt, waits, .error .serviceError⟩
      else backoff3xGo prompt client (attempt + 1) r (waits ++ [2 ^ attempt])
    | .transportError =>
      if r = 0 then ⟨attempt, waits, .error .transportError⟩
      else backoff3xGo prompt client (attempt + 1) r (waits ++ [2 ^ attempt])

/-- Modelled from the spec: dispatch on the configured retry policy
(§4.4, `retryPolicy: "backoff3x" | "singleShotFailFast"`); the
single-shot branch is exactly the source's `call_gemini`. -/
def callModel : RetryPolicy → List Char → ModelClient → CallResult
  | .singleShotFailFast, prompt, client => call_gemini prompt client
  | .backoff3x, prompt, client => backoff3xGo prompt client 1 3 []

/-! ### The extraction pipeline (Process button handler) -/

/-- src/app.py:154 — the "too short" rejection message. -/
def tooShortMsg : List Char := ":x: Please enter lyrics of sufficient length.".data

/-- src/app.py:158 — the "not Japanese" rejection message. -/
def notJapaneseMsg : List Char := ":x: Please enter Japanese lyrics only.".data

/-- Observable outcome of one extraction run: model calls made, backoff
sleeps, and the result (the `vocab` value, or the first fatal error). -/
structure RunResult where
  calls : Nat
  waits : List Nat
  outcome : Except ExtractionError Json
deriving Repr

/-- src/app.py:148-173 — the Process button handler (with the retry
policy of §4.4 exposed as a parameter): reject empty/short lyrics
(`not lyrics or len(lyrics.strip()) < num_words * 4`), reject
non-Japanese lyrics, then build the prompt, call the model under the
policy, sanitize, and parse. -/
def extract (policy : RetryPolicy) (lyrics : List Char) (num_words : Nat)
    (client : ModelClient) : RunResult :=
  if lyrics = [] ∨ (pyStrip lyrics).length < num_words * 4 then
    ⟨0, [], .error (.invalidInput tooShortMsg)⟩
  else if is_japanese lyrics = false then
    ⟨0, [], .error (.invalidInput notJapaneseMsg)⟩
  else
    let c := callModel policy (build_prompt lyrics num_words) client
    match c.outcome with
    | .error e => ⟨c.calls, c.waits, .error e⟩
    | .ok raw => ⟨c.calls, c.waits, parse (clean_gemini_output raw)⟩

example :
    (extract .backoff3x "あめあめふれふれかあさんがじゃのめで".data 3
      (fun _ i => if i < 2 then .serviceError else .ok "\x7b\"vocab\":[1]\x7d".data)).calls
    = 3 := by rfl

example :
    (extract .backoff3x "あめあめふれふれかあさんがじゃのめで".data 3
      (fun _ i => if i < 2 then .serviceError else .ok "\x7b\"vocab\":[1]\x7d".data)).waits
    = [2, 4] := by rfl

/-! ### Helper lemmas -/

theorem dropWhile_idem (p : α → Bool) (l : List α) :
    (l.dropWhile p).dropWhile p = l.dropWhile p := by
  cases h : l.dropWhile p with
  | nil => rfl
  | cons a t =>
    have hp := List.head?_dropWhile_not p l
    rw [h] at hp
    simp only [List.head?_cons] at hp
    simp [List.dropWhile_cons, hp]

theorem pyStrip_eq_self {s : List Char}
    (h1 : s.dropWhile pyIsSpace = s)
    (h2 : s.reverse.dropWhile pyIsSpace = s.reverse) :
    pyStrip s = s := by
  unfold pyStrip
  rw [h1, h2, List.reverse_reverse]

theorem pyStrip_dropWhile (s : List Char) :
    (pyStrip s).dropWhile pyIsSpace = pyStrip s := by
  unfold pyStrip
  cases h : (((s.dropWhile pyIsSpace).reverse.dropWhile pyIsSpace)).reverse with
  | nil => simp [h]
  | cons a t =>
    -- the reversed, twice-dropped list is a prefix of `s.dropWhile pyIsSpace`,
    -- whose head fails `pyIsSpace`
    have hsuf : ((s.dropWhile pyIsSpace).reverse.dropWhile pyIsSpace)
        <:+ (s.dropWhile pyIsSpace).reverse := List.dropWhile_suffix _
    have hpre : ((s.dropWhile pyIsSpace).reverse.dropWhile pyIsSpace).reverse
        <+: s.dropWhile pyIsSpace := by
      obtain ⟨u, hu⟩ := hsuf
      refine ⟨u.reverse, ?_⟩
      have := congrArg List.reverse hu
      simpa [List.reverse_append] using this
    rw [h] at hpre
    obtain ⟨u, hu⟩ := hpre
    have hhead := List.head?_dropWhile_not pyIsSpace s
    rw [← hu] at hhead
    simp only [List.cons_append, List.head?_cons] at hhead
    simp [List.dropWhile_cons, hhead]

theorem pyStrip_reverse_dropWhile (s : List Char) :
    (pyStrip s).reverse.dropWhile pyIsSpace = (pyStrip s).reverse := by
  unfold pyStrip
  rw [List.reverse_reverse]
  exact dropWhile_idem _ _

theorem pyStrip_idem (s : List Char) : pyStrip (pyStrip s) = pyStrip s :=
  pyStrip_eq_self (pyStrip_dropWhile s) (pyStrip_reverse_dropWhile s)

/-- The output of the sanitizer is always a stripped string. -/
theorem clean_gemini_output_stripped (x : List Char) :
    pyStrip (clean_gemini_output x) = clean_gemini_output x := by
  unfold clean_gemini_output
  split
  · exact pyStrip_idem _
  · split
    · exact pyStrip_idem _
    · exact pyStrip_idem x

theorem pyStrip_sandwich (a b : Char) (ha : pyIsSpace a = false) (hb : pyIsSpace b = false)
    (mid : List Char) : pyStrip (a :: (mid ++ [b])) = a :: (mid ++ [b]) := by
  apply pyStrip_eq_self
  · exact List.dropWhile_cons_of_neg (by simp [ha])
  · rw [show (a :: (mid ++ [b])).reverse = b :: (mid.reverse ++ [a]) from by simp]
    exact List.dropWhile_cons_of_neg (by simp [hb])

theorem pyStrip_json_fence (inner : List Char) :
    pyStrip ("```json".data ++ inner ++ "```".data)
      = "```json".data ++ inner ++ "```".data := by
  have key : "```json".data ++ inner ++ "```".data
      = '`' :: ((("``json".data ++ inner) ++ "``".data) ++ ['`']) := by
    rw [show "```json".data = '`' :: "``json".data from rfl,
      show "```".data = "``".data ++ ['`'] from rfl]
    simp [List.append_assoc]
  rw [key]
  exact pyStrip_sandwich '`' '`' (by decide) (by decide) _

theorem pyStrip_plain_fence (inner : List Char) :
    pyStrip ("```".data ++ inner ++ "```".data)
      = "```".data ++ inner ++ "```".data := by
  have key : "```".data ++ inner ++ "```".data
      = '`' :: ((("``".data ++ inner) ++ "``".data) ++ ['`']) := by
    rw [show "```".data = '`' :: "``".data from rfl]
    rw [show '`' :: "``".data = "``".data ++ ['`'] from rfl]
    simp [List.append_assoc]
  rw [key]
  exact pyStrip_sandwich '`' '`' (by decide) (by decide) _

theorem pySlice_fence (A inner : List Char) (k : Nat) (hk : A.length = k) :
    pySlice k 3 (A ++ inner ++ "```".data) = inner := by
  unfold pySlice
  rw [List.append_assoc, List.drop_left' hk]
  have hlen : (A ++ (inner ++ "```".data)).length - (k + 3) = inner.length := by
    simp [List.length_append, hk]
    omega
  rw [hlen, List.take_left' rfl]

theorem clean_json_fence (inner : List Char) :
    clean_gemini_output ("```json".data ++ inner ++ "```".data) = pyStrip inner := by
  unfold clean_gemini_output
  rw [pyStrip_json_fence]
  rw [if_pos ?cond]
  case cond =>
    simp only [List.isPrefixOf_iff_prefix, List.isSuffixOf_iff_suffix]
    exact ⟨by rw [List.append_assoc]; exact List.prefix_append _ _,
      List.suffix_append _ _⟩
  rw [pySlice_fence "```json".data inner 7 (by decide)]

theorem clean_plain_fence (inner : List Char)
    (hj : "json".data.isPrefixOf (inner ++ "```".data) = false) :
    clean_gemini_output ("```".data ++ inner ++ "```".data) = pyStrip inner := by
  unfold clean_gemini_output
  rw [pyStrip_plain_fence]
  rw [if_neg ?cond1, if_pos ?cond2]
  case cond1 =>
    rintro ⟨hp, -⟩
    rw [List.isPrefixOf_iff_prefix] at hp
    rw [show "```json".data = "```".data ++ "json".data from rfl, List.append_assoc,
      List.prefix_append_right_inj] at hp
    rw [← List.isPrefixOf_iff_prefix] at hp
    exact absurd hp (by simp [hj])
  case cond2 =>
    simp only [List.isPrefixOf_iff_prefix, List.isSuffixOf_iff_suffix]
    exact ⟨by rw [List.append_assoc]; exact List.prefix_append _ _,
      List.suffix_append _ _⟩
  rw [pySlice_fence "```".data inner 3 (by decide)]

theorem clean_unfenced (x : List Char)
    (h : "```".data.isPrefixOf (pyStrip x) = true ∧ "```".data.isSuffixOf (pyStrip x) = true → False) :
    clean_gemini_output x = pyStrip x := by
  unfold clean_gemini_output
  rw [if_neg ?cond1, if_neg ?cond2]
  case cond1 =>
    rintro ⟨hp, hs⟩
    refine h ⟨?_, hs⟩
    rw [List.isPrefixOf_iff_prefix] at hp ⊢
    exact List.IsPrefix.trans ⟨"json".data, rfl⟩ hp
  case cond2 => exact fun hc => h ⟨hc.1, hc.2⟩

/-- C6: `sanitize` strips a leading/trailing triple-backtick fence (with an
immediately following `json` tag also stripped), leaving the interior text
(trimmed); unfenced input is returned unchanged except for trimming; and
`sanitize('```json\n\x7b"vocab":[]\x7d\n```') = '\x7b"vocab":[]\x7d'`.
Totality never fails: `clean_gemini_output` is a total Lean function. -/
theorem C6_sanitizer_contract :
    (∀ x, ("```".data.isPrefixOf (pyStrip x) = true ∧ "```".data.isSuffixOf (pyStrip x) = true → False) →
        clean_gemini_output x = pyStrip x) ∧
    (∀ inner, clean_gemini_output ("```json".data ++ inner ++ "```".data) = pyStrip inner) ∧
    (∀ inner, "json".data.isPrefixOf (inner ++ "```".data) = false →
        clean_gemini_output ("```".data ++ inner ++ "```".data) = pyStrip inner) ∧
    clean_gemini_output "```json\n\x7b\"vocab\":[]\x7d\n```".data = "\x7b\"vocab\":[]\x7d".data :=
  ⟨clean_unfenced, clean_json_fence, clean_plain_fence, by decide⟩

/-- C6 witness: the contract evaluated at concrete inputs. -/
theorem C6_sanitizer_contract_witness :
    (("```".data.isPrefixOf (pyStrip "hello".data) = true ∧
        "```".data.isSuffixOf (pyStrip "hello".data) = true → False) ∧
      clean_gemini_output "hello".data = pyStrip "hello".data) ∧
    ("json".data.isPrefixOf ("abc".data ++ "```".data) = false ∧
      clean_gemini_output ("```".data ++ "abc".data ++ "```".data) = pyStrip "abc".data) :=
  ⟨⟨by decide, C6_sanitizer_contract.1 "hello".data (by decide)⟩,
   ⟨by decide, C6_sanitizer_contract.2.2.1 "abc".data (by decide)⟩⟩

/-- C7 counterexample: `sanitize` is NOT idempotent.  On the input
`'``` ```json\x7b\x7d``` ```'` the first pass strips the outer bare fence and
trimming exposes an inner ```` ```json ```` fence, which a second pass
strips again. -/
theorem C7_not_idempotent_counterexample :
    clean_gemini_output (clean_gemini_output "``` ```json\x7b\x7d``` ```".data)
      ≠ clean_gemini_output "``` ```json\x7b\x7d``` ```".data := by decide

/-- C7 (amended): `sanitize` is idempotent on every input whose sanitized
output is not itself again fenced (does not both start and end with
```` ``` ````); on such re-fenced outputs a second pass strips again. -/
theorem C7_idempotent_unless_refenced (x : List Char)
    (h : "```".data.isPrefixOf (clean_gemini_output x) = true ∧
        "```".data.isSuffixOf (clean_gemini_output x) = true → False) :
    clean_gemini_output (clean_gemini_output x) = clean_gemini_output x := by
  rw [clean_unfenced (clean_gemini_output x)
      (by rw [clean_gemini_output_stripped]; exact h)]
  exact clean_gemini_output_stripped x

/-- C7 witness: the amended idempotence evaluated at a concrete input. -/
theorem C7_idempotent_unless_refenced_witness :
    ("```".data.isPrefixOf (clean_gemini_output "```json\nabc\n```".data) = true ∧
        "```".data.isSuffixOf (clean_gemini_output "```json\nabc\n```".data) = true → False) ∧
    clean_gemini_output (clean_gemini_output "```json\nabc\n```".data)
      = clean_gemini_output "```json\nabc\n```".data :=
  ⟨by decide, C7_idempotent_unless_refenced "```json\nabc\n```".data (by decide)⟩

/-- C4: under the ratio policy, a Japanese-character ratio ≤ 0.2
(`5 * count ≤ length`) yields `false`; under the absolute-count policy of
src/app.py, fewer than 15 Japanese characters yields `false`, and
`is_japanese` returns `true` exactly when the count of characters in the
regex's Hiragana/Katakana/CJK ranges (plus 々, 〆, 〤, ー) is at least 15. -/
theorem C4_is_japanese_characterization :
    (∀ t, 5 * jpCount t ≤ t.length → is_japanese_ratio_policy t = false) ∧
    (∀ t, jpCount t < 15 → is_japanese t = false) ∧
    (∀ t, is_japanese t = true ↔ 15 ≤ jpCount t) := by
  refine ⟨fun t h => ?_, fun t h => ?_, fun t => ?_⟩
  · simp only [is_japanese_ratio_policy, decide_eq_false_iff_not, not_lt]
    exact h
  · simp only [is_japanese, decide_eq_false_iff_not, not_le]
    exact h
  · simp [is_japanese]

/-- C4 witness: the characterization evaluated at concrete inputs. -/
theorem C4_is_japanese_characterization_witness :
    (5 * jpCount "hello world".data ≤ "hello world".data.length ∧
      is_japanese_ratio_policy "hello world".data = false) ∧
    (jpCount "こんにちは".data < 15 ∧ is_japanese "こんにちは".data = false) ∧
    (is_japanese "あめあめふれふれかあさんがじゃのめで".data = true ↔
      15 ≤ jpCount "あめあめふれふれかあさんがじゃのめで".data) :=
  ⟨⟨by decide, C4_is_japanese_characterization.1 _ (by decide)⟩,
   ⟨by decide, C4_is_japanese_characterization.2.1 _ (by decide)⟩,
   C4_is_japanese_characterization.2.2 _⟩

/-- C5: `build_prompt` embeds exactly the first 500 characters of the
lyrics: the prompt is unchanged by pre-truncating the lyrics to 500
characters (excess is silently ignored), the first 500 characters always
appear verbatim as an infix, and lyrics of at most 500 characters appear
in full. -/
theorem C5_prompt_truncation :
    (∀ lyrics n, build_prompt lyrics n = build_prompt (lyrics.take 500) n) ∧
    (∀ lyrics n, (lyrics.take 500) <:+: build_prompt lyrics n) ∧
    (∀ lyrics n, lyrics.length ≤ 500 → lyrics <:+: build_prompt lyrics n) := by
  have hinf : ∀ (lyrics : List Char) (n : Nat), (lyrics.take 500) <:+: build_prompt lyrics n :=
    fun lyrics n =>
      ⟨promptHead ++ natToChars n ++ promptMid, "\n".data, by
        simp [build_prompt, List.append_assoc]⟩
  refine ⟨fun lyrics n => ?_, hinf, fun lyrics n h => ?_⟩
  · simp [build_prompt, List.take_take]
  · have := hinf lyrics n
    rwa [List.take_of_length_le h] at this

/-- C5 witness: truncation behavior at concrete inputs (a short lyric
appears in full). -/
theorem C5_prompt_truncation_witness :
    ("abc".data.length ≤ 500 ∧ "abc".data <:+: build_prompt "abc".data 5) ∧
    build_prompt "abc".data 5 = build_prompt ("abc".data.take 500) 5 :=
  ⟨⟨by decide, C5_prompt_truncation.2.2 "abc".data 5 (by decide)⟩,
   C5_prompt_truncation.1 "abc".data 5⟩

/-- C8: whenever the JSON decoder fails, `parse` fails with the typed
error `invalidJson` carrying the decoder's diagnostic (a constructor
distinct from every other failure kind); in particular `parse('not json')`
fails with `invalidJson`. -/
theorem C8_invalid_json :
    (∀ s diag, jsonLoads s = .error diag → parse s = .error (.invalidJson diag)) ∧
    parse "not json".data = .error (.invalidJson "Expecting value".data) := by
  constructor
  · intro s diag h
    simp [parse, parse_json_safely, h]
  · rfl

/-- C8 witness: the invalid-JSON propagation applied at a concrete input. -/
theorem C8_invalid_json_witness :
    jsonLoads "\x7b oops".data
      = .error "Expecting property name enclosed in double quotes".data ∧
    parse "\x7b oops".data
      = .error (.invalidJson "Expecting property name enclosed in double quotes".data) :=
  ⟨rfl, C8_invalid_json.1 _ _ rfl⟩

/-- C9: a decoded JSON object whose `vocab` field is absent or the empty
array makes `parse` fail with `emptyVocabulary` (a typed no-data result,
not a crash); in particular `parse('\x7b"vocab":[]\x7d')` fails with
`emptyVocabulary`. -/
theorem C9_empty_vocabulary :
    (∀ s fields, jsonLoads s = .ok (.obj fields) →
        dictGet fields "vocab".data (Json.arr []) = Json.arr [] →
        parse s = .error .emptyVocabulary) ∧
    parse "\x7b\"vocab\":[]\x7d".data = .error .emptyVocabulary := by
  constructor
  · intro s fields h hv
    simp [parse, parse_json_safely, h, pyGetVocab, hv, jsonFalsy]
  · rfl

/-- C9 witness: the empty-vocabulary failure applied at a concrete input
whose `vocab` field is absent. -/
theorem C9_empty_vocabulary_witness :
    jsonLoads "\x7b\"a\":1\x7d".data = .ok (.obj [("a".data, .num ['1'])]) ∧
    dictGet [("a".data, .num ['1'])] "vocab".data (Json.arr []) = Json.arr [] ∧
    parse "\x7b\"a\":1\x7d".data = .error .emptyVocabulary :=
  ⟨rfl, rfl, C9_empty_vocabulary.1 _ _ rfl rfl⟩

/-! ### Extraction-level claims -/

theorem backoff3xGo_no_invalidInput (prompt : List Char) (client : ModelClient)
    (m : List Char) : ∀ (r attempt : Nat) (waits : List Nat),
    (backoff3xGo prompt client attempt r waits).outcome ≠ .error (.invalidInput m) := by
  intro r
  induction r with
  | zero => intro attempt waits; simp [backoff3xGo]
  | succ r ih =>
    intro attempt waits
    cases h : client prompt (attempt - 1) <;> simp [backoff3xGo, h]
    · split
      · simp
      · exact ih (attempt + 1) (waits ++ [2 ^ attempt])
    · split
      · simp
      · exact ih (attempt + 1) (waits ++ [2 ^ attempt])

theorem callModel_no_invalidInput (policy : RetryPolicy) (prompt : List Char)
    (client : ModelClient) (m : List Char) :
    (callModel policy prompt client).outcome ≠ .error (.invalidInput m) := by
  cases policy with
  | singleShotFailFast =>
    cases h : client prompt 0 <;> simp [callModel, call_gemini, h]
  | backoff3x => exact backoff3xGo_no_invalidInput prompt client m 3 1 []

theorem parse_no_invalidInput (t : List Char) (m : List Char) :
    parse t ≠ .error (.invalidInput m) := by
  unfold parse
  cases h : parse_json_safely t with
  | mk diag data =>
    cases diag <;> simp
    split <;> simp

/-- C1: if the model client fails with RateLimited on the first call,
`extract` fails immediately with the fatal quota error, with exactly 1
model call made and no backoff wait — under every configured retry
policy. -/
theorem C1_rateLimited_never_retried (policy : RetryPolicy) (lyrics : List Char)
    (n : Nat) (client : ModelClient)
    (h1 : ¬(lyrics = [] ∨ (pyStrip lyrics).length < n * 4))
    (h2 : is_japanese lyrics = true)
    (h3 : client (build_prompt lyrics n) 0 = .rateLimited) :
    extract policy lyrics n client = ⟨1, [], .error .rateLimited⟩ := by
  cases policy <;>
    simp [extract, h1, h2, callModel, call_gemini, backoff3xGo, h3]

/-- C1 witness: a rate-limited stub under `backoff3x` at a concrete
request. -/
theorem C1_rateLimited_never_retried_witness :
    ¬("あめあめふれふれかあさんがじゃのめで".data = [] ∨
        (pyStrip "あめあめふれふれかあさんがじゃのめで".data).length < 4 * 4) ∧
    is_japanese "あめあめふれふれかあさんがじゃのめで".data = true ∧
    extract .backoff3x "あめあめふれふれかあさんがじゃのめで".data 4
        (fun _ _ => .rateLimited)
      = ⟨1, [], .error .rateLimited⟩ :=
  ⟨by decide, by decide,
    C1_rateLimited_never_retried .backoff3x _ 4 _ (by decide) (by decide) rfl⟩

/-- C2: under `backoff3x`, a client failing with ServiceError on the
first two calls and succeeding on the third yields success after exactly
3 calls with two intervening backoff waits of 2 and 4 seconds. -/
theorem C2_backoff3x_two_failures_then_success (lyrics : List Char) (n : Nat)
    (client : ModelClient) (t : List Char) (v : Json)
    (h1 : ¬(lyrics = [] ∨ (pyStrip lyrics).length < n * 4))
    (h2 : is_japanese lyrics = true)
    (hc0 : client (build_prompt lyrics n) 0 = .serviceError)
    (hc1 : client (build_prompt lyrics n) 1 = .serviceError)
    (hc2 : client (build_prompt lyrics n) 2 = .ok t)
    (hp : parse (clean_gemini_output t) = .ok v) :
    extract .backoff3x lyrics n client = ⟨3, [2, 4], .ok v⟩ := by
  simp [extract, h1, h2, callModel, backoff3xGo, hc0, hc1, hc2, hp]

/-- C2 witness: the three-call backoff scenario at a concrete request
with a fenced JSON payload. -/
theorem C2_backoff3x_two_failures_then_success_witness :
    extract .backoff3x "あめあめふれふれかあさんがじゃのめで".data 4
        (fun _ i => if i < 2 then .serviceError
          else .ok "```json\n\x7b\"vocab\":[1]\x7d\n```".data)
      = ⟨3, [2, 4], .ok (.arr [.num ['1']])⟩ :=
  C2_backoff3x_two_failures_then_success _ 4 _ _ _
    (by decide) (by decide) rfl rfl rfl rfl

/-- C3: a request whose lyrics are absent, below the minimum length, or
failing the Japanese heuristic fails with InvalidInput and makes zero
model calls, under every policy and every client. -/
theorem C3_invalid_input_before_model_call (policy : RetryPolicy)
    (lyrics : List Char) (n : Nat) (client : ModelClient)
    (h : lyrics = [] ∨ (pyStrip lyrics).length < n * 4 ∨ is_japanese lyrics = false) :
    (∃ m, (extract policy lyrics n client).outcome = .error (.invalidInput m)) ∧
      (extract policy lyrics n client).calls = 0 := by
  by_cases h1 : lyrics = [] ∨ (pyStrip lyrics).length < n * 4
  · refine ⟨⟨tooShortMsg, ?_⟩, ?_⟩ <;> simp [extract, h1]
  · have h2 : is_japanese lyrics = false := by
      rcases h with h | h | h
      · exact absurd (Or.inl h) h1
      · exact absurd (Or.inr h) h1
      · exact h
    refine ⟨⟨notJapaneseMsg, ?_⟩, ?_⟩ <;> simp [extract, h1, h2]

/-- C3 witness: a non-Japanese request makes no model call. -/
theorem C3_invalid_input_before_model_call_witness :
    ("hello world, this is not japanese text".data = [] ∨
      (pyStrip "hello world, this is not japanese text".data).length < 2 * 4 ∨
      is_japanese "hello world, this is not japanese text".data = false) ∧
    (∃ m, (extract .singleShotFailFast "hello world, this is not japanese text".data 2
        (fun _ _ => .ok "x".data)).outcome = .error (.invalidInput m)) ∧
    (extract .singleShotFailFast "hello world, this is not japanese text".data 2
        (fun _ _ => .ok "x".data)).calls = 0 :=
  ⟨by decide,
    (C3_invalid_input_before_model_call .singleShotFailFast _ 2 _ (by decide)).1,
    (C3_invalid_input_before_model_call .singleShotFailFast _ 2 _ (by decide)).2⟩

/-- C10: with a word count of at least 1 (the UI enforces 1..20), the
request is rejected as too short exactly when the whitespace-stripped
lyrics are shorter than `num_words * 4` characters — a threshold scaling
with the requested word count. -/
theorem C10_short_threshold (policy : RetryPolicy) (lyrics : List Char)
    (n : Nat) (client : ModelClient) (hn : 1 ≤ n) :
    (extract policy lyrics n client).outcome = .error (.invalidInput tooShortMsg)
      ↔ (pyStrip lyrics).length < n * 4 := by
  constructor
  · intro h
    by_cases h1 : lyrics = [] ∨ (pyStrip lyrics).length < n * 4
    · rcases h1 with h1 | h1
      · subst h1
        show (pyStrip ([] : List Char)).length < n * 4
        have : (pyStrip ([] : List Char)).length = 0 := rfl
        omega
      · exact h1
    · exfalso
      by_cases h2 : is_japanese lyrics = false
      · simp [extract, h1, h2] at h
        exact absurd h (by decide)
      · rcases ho : (callModel policy (build_prompt lyrics n) client).outcome with e | raw
        · simp [extract, h1, h2, ho] at h
          exact callModel_no_invalidInput policy _ client tooShortMsg (by rw [ho, h])
        · simp [extract, h1, h2, ho] at h
          exact parse_no_invalidInput (clean_gemini_output raw) tooShortMsg h
  · intro h
    simp [extract, Or.inr h]

/-- C10 witness: both directions of the threshold at concrete requests. -/
theorem C10_short_threshold_witness :
    (1 ≤ 5 ∧
      ((extract .singleShotFailFast "abc".data 5 (fun _ _ => .rateLimited)).outcome
          = .error (.invalidInput tooShortMsg)
        ↔ (pyStrip "abc".data).length < 5 * 4)) ∧
    (1 ≤ 1 ∧
      ((extract .singleShotFailFast "あめあめふれふれかあさんがじゃのめで".data 1
          (fun _ _ => .rateLimited)).outcome = .error (.invalidInput tooShortMsg)
        ↔ (pyStrip "あめあめふれふれかあさんがじゃのめで".data).length < 1 * 4)) :=
  ⟨⟨by decide, C10_short_threshold .singleShotFailFast _ 5 _ (by decide)⟩,
   ⟨by decide, C10_short_threshold .singleShotFailFast _ 1 _ (by decide)⟩⟩
